import Mathlib

/-!
# Verification of a Strava running-dashboard script

A shallow embedding of `src/app.py` (a single-file Streamlit dashboard):
the fetch wrapper `get_strava_activities`, the transform
`process_activities`, and the aggregation/selection expressions of the
app layout (KPIs and best marks).  Python floats are modelled as
rationals; fields that may be `None`/falsy are modelled as `Option ℚ`.
-/

/-- Round-half-to-even on a rational, the tie-breaking rule of Python's
built-in `round`. -/
def roundHalfEven (q : ℚ) : ℤ :=
  if q - ⌊q⌋ < 1/2 then ⌊q⌋
  else if 1/2 < q - ⌊q⌋ then ⌊q⌋ + 1
  else if 2 ∣ ⌊q⌋ then ⌊q⌋ else ⌊q⌋ + 1

/-- Python's `round(x, 2)`: round to two decimal places. -/
def round2 (q : ℚ) : ℚ := (roundHalfEven (q * 100) : ℚ) / 100

/-- A raw Strava activity as `app.py` reads it.  `distance` is in metres,
`moving_time` in seconds (`float()` of the stravalib `Duration`),
`total_elevation_gain` in metres; `none` models a missing/`None` field.
`start_date_local` is the local start instant, as a timestamp: the code
renders it with `strftime("%Y-%m-%d %H:%M:%S")` and re-parses it with
`pd.to_datetime`, a round trip that preserves the ordering of instants,
so only the order of this field matters here. -/
structure Activity where
  id : Int
  name : String
  type : String
  distance : Option ℚ
  moving_time : Option ℚ
  total_elevation_gain : Option ℚ
  start_date_local : Int
deriving Repr, DecidableEq

/-- Python truthiness of an optional number: `None` and `0` are falsy. -/
def qTruthy : Option ℚ → Bool
  | none => false
  | some q => decide (q ≠ 0)

/-- `moving_time_seconds = float(act.moving_time) if act.moving_time else 0`. -/
def movingSeconds (act : Activity) : ℚ :=
  if qTruthy act.moving_time then act.moving_time.getD 0 else 0

/-- `distancia_km = round(float(act.distance) / 1000, 2) if act.distance else 0`. -/
def distKm (act : Activity) : ℚ :=
  if qTruthy act.distance then round2 (act.distance.getD 0 / 1000) else 0

/-- One row of the `processed_data` list built in the loop of
`process_activities` (the dict appended for a `'Run'` activity). -/
structure RunRow where
  id : Int
  nombre : String
  tipo : String
  distancia_km : ℚ
  tiempo_min : ℚ
  desnivel_m : ℚ
  ritmo_seg_km : ℚ
  fecha : Int
deriving Repr, DecidableEq

/-- The body of the loop in `process_activities`: the record appended for
one activity (only ever called on activities of type `'Run'`). -/
def makeRow (act : Activity) : RunRow :=
  let activity_type_str := act.type
  let distancia_km := distKm act
  let moving_time_seconds := movingSeconds act
  let tiempo_min := round2 (moving_time_seconds / 60)
  let ritmo_total_segundos :=
    if moving_time_seconds > 0 ∧ distancia_km > 0 then
      moving_time_seconds / distancia_km
    else 0
  { id := act.id
    nombre := act.name
    tipo := activity_type_str
    distancia_km := distancia_km
    tiempo_min := tiempo_min
    desnivel_m :=
      if qTruthy act.total_elevation_gain then act.total_elevation_gain.getD 0 else 0
    ritmo_seg_km := ritmo_total_segundos
    fecha := act.start_date_local }

/-- The `for act in activities` loop: skip (`continue`) every activity whose
type is not `'Run'`, append `makeRow act` for the rest. -/
def processLoop : List Activity → List RunRow
  | [] => []
  | act :: rest =>
    if act.type ≠ "Run" then processLoop rest
    else makeRow act :: processLoop rest

/-- `df.sort_values("Fecha", ascending=False)`: sort rows by date, newest
first.  (`reset_index(drop=True)` re-labels rows 0..n-1, which is the
positional indexing of a list.) -/
def sortByFechaDesc (rows : List RunRow) : List RunRow :=
  rows.mergeSort (fun a b => decide (b.fecha ≤ a.fecha))

/-- Pad a natural number to at least two digits (`%02d`). -/
def pad2 (n : Nat) : String :=
  if n < 10 then "0" ++ toString n else toString n

/-- `f"{int(s // 60):02d}:{int(s % 60):02d}"` for a nonnegative float `s`. -/
def fmtMMSS (s : ℚ) : String :=
  pad2 (Int.toNat ⌊s / 60⌋) ++ ":" ++ pad2 (Int.toNat ⌊s - 60 * ⌊s / 60⌋⌋)

/-- The lambda applied to the `'Ritmo (seg/km)'` column to build the
display column `'Ritmo (min/km)'`. -/
def ritmoDisplay (s : ℚ) : String :=
  if s > 0 then fmtMMSS s else "N/A"

/-- A row of the DataFrame returned by `process_activities`: a `RunRow`
together with the display column `'Ritmo (min/km)'` added at the end. -/
structure DisplayRow extends RunRow where
  ritmo_min_km : String
deriving Repr, DecidableEq

/-- `process_activities`: filter to runs, build the rows, return the empty
DataFrame when no run was found, else sort by date descending and add the
`'Ritmo (min/km)'` display column. -/
def process_activities (activities : List Activity) : List DisplayRow :=
  let processed_data := processLoop activities
  if processed_data.isEmpty then []
  else
    (sortByFechaDesc processed_data).map
      (fun r => { toRunRow := r, ritmo_min_km := ritmoDisplay r.ritmo_seg_km })

/-- The token dict returned by `client.refresh_access_token`. -/
structure TokenInfo where
  access_token : String

/-- Modelled behaviour of the external stravalib client:
`client.get_activities(limit=n)` yields at most `n` of the account's
activities (the library cuts the activity stream off at `limit`). -/
def Client.get_activities (limit : Nat) (stream : List Activity) : List Activity :=
  stream.take limit

/-- `get_strava_activities`: the body of the `try` block refreshes the
token and then fetches `list(client.get_activities(limit=100))`; the two
fallible API interactions are modelled as `Except`-valued inputs
(`.error` = the call raised).  The `except Exception` clause turns any
raised exception into the result `[]`. -/
def get_strava_activities (refreshResult : Except String TokenInfo)
    (activityStream : Except String (List Activity)) : List Activity :=
  let tryBlock : Except String (List Activity) := do
    let _token_info ← refreshResult
    let stream ← activityStream
    pure (Client.get_activities 100 stream)
  match tryBlock with
  | .ok acts => acts
  | .error _e => []

/-- `df_runs['Distancia (km)'].sum()`. -/
def total_km (df : List DisplayRow) : ℚ := (df.map (·.distancia_km)).sum

/-- `df_runs['Tiempo (min)'].sum()`. -/
def total_time_min (df : List DisplayRow) : ℚ := (df.map (·.tiempo_min)).sum

/-- `df_runs['Desnivel (m)'].sum()`. -/
def total_elevation (df : List DisplayRow) : ℚ := (df.map (·.desnivel_m)).sum

/-- `df[df['Ritmo (seg/km)'] > 0]`. -/
def positivePace (df : List DisplayRow) : List DisplayRow :=
  df.filter (fun r => decide (r.ritmo_seg_km > 0))

/-- `df_runs[df_runs['Ritmo (seg/km)'] > 0]['Ritmo (seg/km)'].mean()`. -/
def avg_pace_seconds (df : List DisplayRow) : ℚ :=
  let paces := (positivePace df).map (·.ritmo_seg_km)
  paces.sum / paces.length

/-- `df_significant = df_runs[df_runs['Distancia (km)'] >= 1]`. -/
def df_significant (df : List DisplayRow) : List DisplayRow :=
  df.filter (fun r => decide (1 ≤ r.distancia_km))

/-- `df_significant.loc[df_significant['Distancia (km)'].idxmax()]`:
pandas `idxmax` labels the first row attaining the maximum, as
`List.argmax` does. -/
def longest_run (df : List DisplayRow) : Option DisplayRow :=
  List.argmax (·.distancia_km) (df_significant df)

/-- `df_significant.loc[df_significant[df_significant['Ritmo (seg/km)'] > 0]
['Ritmo (seg/km)'].idxmin()]`: the first positive-pace row of
`df_significant` attaining the minimum pace. -/
def fastest_run (df : List DisplayRow) : Option DisplayRow :=
  List.argmin (·.ritmo_seg_km) (positivePace (df_significant df))

/-- `df_significant.loc[df_significant['Desnivel (m)'].idxmax()]`. -/
def most_elevation_run (df : List DisplayRow) : Option DisplayRow :=
  List.argmax (·.desnivel_m) (df_significant df)

/-! ### Basic lemmas about the embedding -/

theorem processLoop_eq_filterMap (acts : List Activity) :
    processLoop acts = (acts.filter (fun a => a.type == "Run")).map makeRow := by
  induction acts with
  | nil => rfl
  | cons a rest ih =>
    by_cases h : a.type = "Run" <;> simp [processLoop, h, ih]

theorem process_activities_eq (acts : List Activity) :
    process_activities acts =
      (sortByFechaDesc (processLoop acts)).map
        (fun r => { toRunRow := r, ritmo_min_km := ritmoDisplay r.ritmo_seg_km }) := by
  unfold process_activities
  by_cases h : (processLoop acts).isEmpty
  · rw [List.isEmpty_iff] at h
    simp [h, sortByFechaDesc]
  · simp [h]

theorem mem_process_activities {r : DisplayRow} {acts : List Activity} :
    r ∈ process_activities acts ↔
      ∃ a ∈ acts, a.type = "Run" ∧
        r = { toRunRow := makeRow a,
              ritmo_min_km := ritmoDisplay (makeRow a).ritmo_seg_km } := by
  rw [process_activities_eq]
  simp only [List.mem_map, sortByFechaDesc, List.mem_mergeSort,
    processLoop_eq_filterMap, List.mem_filter, beq_iff_eq]
  constructor
  · rintro ⟨r0, ⟨a, ⟨ha, hty⟩, hmk⟩, hr⟩
    exact ⟨a, ha, hty, by rw [← hr, ← hmk]⟩
  · rintro ⟨a, ha, hty, hr⟩
    exact ⟨makeRow a, ⟨a, ⟨ha, hty⟩, rfl⟩, hr.symm⟩

theorem process_activities_perm (acts : List Activity) :
    (process_activities acts).Perm
      ((acts.filter (fun a => a.type == "Run")).map
        (fun a => { toRunRow := makeRow a,
                    ritmo_min_km := ritmoDisplay (makeRow a).ritmo_seg_km })) := by
  rw [process_activities_eq]
  have h1 := (List.mergeSort_perm (processLoop acts)
      (fun a b => decide (b.fecha ≤ a.fecha))).map
    (fun r => ({ toRunRow := r, ritmo_min_km := ritmoDisplay r.ritmo_seg_km } : DisplayRow))
  refine h1.trans ?_
  rw [processLoop_eq_filterMap, List.map_map]
  rfl

theorem floor_le_roundHalfEven (q : ℚ) : ⌊q⌋ ≤ roundHalfEven q := by
  unfold roundHalfEven
  split_ifs <;> omega

theorem roundHalfEven_nonneg {q : ℚ} (h : 0 ≤ q) : 0 ≤ roundHalfEven q :=
  le_trans (Int.floor_nonneg.mpr h) (floor_le_roundHalfEven q)

theorem round2_nonneg {q : ℚ} (h : 0 ≤ q) : 0 ≤ round2 q := by
  unfold round2
  have h1 : 0 ≤ roundHalfEven (q * 100) := roundHalfEven_nonneg (by positivity)
  have h2 : (0:ℚ) ≤ (roundHalfEven (q * 100) : ℚ) := by exact_mod_cast h1
  positivity

/-! ### Claims -/

/-- C2: if the Strava API interaction inside `get_strava_activities`
(token refresh or activity fetch) raises, the function returns `[]`. -/
theorem C2_exception_yields_empty (refreshResult : Except String TokenInfo)
    (activityStream : Except String (List Activity))
    (h : (∃ e, refreshResult = Except.error e) ∨
         (∃ e, activityStream = Except.error e)) :
    get_strava_activities refreshResult activityStream = [] := by
  rcases h with ⟨e, he⟩ | ⟨e, he⟩
  · subst he; rfl
  · subst he; cases refreshResult <;> rfl

/-- Witness for C2 at a failing refresh call and at a failing fetch. -/
theorem C2_witness :
    get_strava_activities (Except.error "HTTP 401") (Except.ok []) = [] ∧
    get_strava_activities (Except.ok ⟨"tok"⟩) (Except.error "HTTP 500") = [] :=
  ⟨C2_exception_yields_empty _ _ (Or.inl ⟨"HTTP 401", rfl⟩),
   C2_exception_yields_empty _ _ (Or.inr ⟨"HTTP 500", rfl⟩)⟩

theorem get_strava_activities_cases (refreshResult : Except String TokenInfo)
    (activityStream : Except String (List Activity)) :
    get_strava_activities refreshResult activityStream =
      match refreshResult, activityStream with
      | .ok _, .ok stream => Client.get_activities 100 stream
      | _, _ => [] := by
  cases refreshResult <;> cases activityStream <;> rfl

/-- C6: `get_strava_activities` passes `limit=100` to the client, so every
run of it (successful or not) returns at most 100 activities. -/
theorem C6_at_most_100 (refreshResult : Except String TokenInfo)
    (activityStream : Except String (List Activity)) :
    (get_strava_activities refreshResult activityStream).length ≤ 100 := by
  rw [get_strava_activities_cases]
  cases refreshResult <;> cases activityStream <;>
    simp [Client.get_activities, List.length_take_le]

/-- C7: the transform stage is a deterministic pure function of the
fetched activity list: equal inputs give identical DataFrames. -/
theorem C7_deterministic (acts1 acts2 : List Activity) (h : acts1 = acts2) :
    process_activities acts1 = process_activities acts2 := by
  rw [h]

/-- Witness for C7 on a concrete input. -/
theorem C7_witness :
    process_activities [] = process_activities [] :=
  C7_deterministic [] [] rfl

/-- C9: the rows of the DataFrame returned by `process_activities` are
sorted by the `'Fecha'` column in descending order (newest first); row
labels are positional 0..n-1 after `reset_index(drop=True)`, which a list
satisfies by construction. -/
theorem C9_sorted_by_date_desc (acts : List Activity) :
    (process_activities acts).Pairwise (fun r1 r2 => r2.fecha ≤ r1.fecha) := by
  rw [process_activities_eq]
  have hs := @List.sorted_mergeSort RunRow
    (fun a b => decide (b.fecha ≤ a.fecha))
    (fun a b c hab hbc => by
      simp only [decide_eq_true_eq] at *
      omega)
    (fun a b => by
      simp only [Bool.or_eq_true, decide_eq_true_eq]
      omega)
    (processLoop acts)
  have hs2 : (sortByFechaDesc (processLoop acts)).Pairwise
      (fun a b : RunRow => b.fecha ≤ a.fecha) :=
    hs.imp (fun h => by simpa using h)
  exact hs2.map _ (fun a b hab => hab)

theorem makeRow_ritmo_eq (act : Activity) :
    (makeRow act).ritmo_seg_km =
      if movingSeconds act > 0 ∧ distKm act > 0 then
        movingSeconds act / distKm act
      else 0 := rfl

theorem makeRow_distancia_eq (act : Activity) :
    (makeRow act).distancia_km = distKm act := rfl

theorem makeRow_tiempo_eq (act : Activity) :
    (makeRow act).tiempo_min = round2 (movingSeconds act / 60) := rfl

theorem makeRow_ritmo_pos_iff (act : Activity) :
    0 < (makeRow act).ritmo_seg_km ↔ 0 < distKm act ∧ 0 < movingSeconds act := by
  rw [makeRow_ritmo_eq]
  by_cases hc : movingSeconds act > 0 ∧ distKm act > 0
  · rw [if_pos hc]
    constructor
    · intro _; exact ⟨hc.2, hc.1⟩
    · intro _; exact div_pos hc.1 hc.2
  · rw [if_neg hc]
    constructor
    · intro h; exact absurd h (lt_irrefl 0)
    · intro h; exact absurd ⟨h.2, h.1⟩ hc

/-- C1: for a processed record whose moving-time seconds are zero (or
missing) or whose rounded distance in km is zero, the pace field
`'Ritmo (seg/km)'` is the sentinel 0 — the embedded computation is total,
no division happens on this path — and the display column
`'Ritmo (min/km)'` of its row is the string "N/A". -/
theorem C1_zero_pace_sentinel (acts : List Activity) (r : DisplayRow)
    (hr : r ∈ process_activities acts) (act : Activity)
    (hact : r.toRunRow = makeRow act)
    (hz : movingSeconds act = 0 ∨ distKm act = 0) :
    r.ritmo_seg_km = 0 ∧ r.ritmo_min_km = "N/A" := by
  have hmk : (makeRow act).ritmo_seg_km = 0 := by
    rw [makeRow_ritmo_eq]
    rcases hz with h | h <;> simp [h]
  have hr0 : r.ritmo_seg_km = 0 := by rw [hact]; exact hmk
  refine ⟨hr0, ?_⟩
  rcases mem_process_activities.mp hr with ⟨a, -, -, rfl⟩
  have ha0 : (makeRow a).ritmo_seg_km = 0 := by simpa using hr0
  simp [ritmoDisplay, ha0]

/-- C3: `process_activities` keeps a row for exactly the activities whose
type equals 'Run': the result is a permutation of the rows built from the
'Run' records in order, every resulting row has `'Tipo' = "Run"`, and when
no activity has type 'Run' the result is the empty DataFrame. -/
theorem C3_run_filter (acts : List Activity) :
    (process_activities acts).Perm
      ((acts.filter (fun a => a.type == "Run")).map
        (fun a => { toRunRow := makeRow a,
                    ritmo_min_km := ritmoDisplay (makeRow a).ritmo_seg_km })) ∧
    (∀ r ∈ process_activities acts, r.tipo = "Run") ∧
    ((∀ a ∈ acts, a.type ≠ "Run") → process_activities acts = []) := by
  refine ⟨process_activities_perm acts, ?_, ?_⟩
  · intro r hr
    rcases mem_process_activities.mp hr with ⟨a, -, hty, rfl⟩
    simpa [makeRow] using hty
  · intro hno
    have hfil : acts.filter (fun a => a.type == "Run") = [] := by
      rw [List.filter_eq_nil_iff]
      intro a ha
      simpa using hno a ha
    have hperm := process_activities_perm acts
    rw [hfil, List.map_nil] at hperm
    exact hperm.eq_nil

theorem round2_zero : round2 0 = 0 := by
  norm_num [round2, roundHalfEven]

/-- C4: the four derived numeric fields of a 'Run' record and their
divide-by-zero guards: distance in km is the raw distance / 1000 rounded
to two decimals (0 when falsy), time in minutes is the unrounded seconds
/ 60 rounded to two decimals (0 when falsy), elevation is the raw value
(0 when falsy), and pace is unrounded seconds / rounded km when both are
positive, else 0. -/
theorem C4_derived_fields (act : Activity) (hrun : act.type = "Run") :
    ((act.distance = none ∨ act.distance = some 0) →
        (makeRow act).distancia_km = 0) ∧
    (∀ d : ℚ, act.distance = some d → d ≠ 0 →
        (makeRow act).distancia_km = round2 (d / 1000)) ∧
    ((act.moving_time = none ∨ act.moving_time = some 0) →
        movingSeconds act = 0 ∧ (makeRow act).tiempo_min = 0) ∧
    (∀ s : ℚ, act.moving_time = some s → s ≠ 0 →
        movingSeconds act = s ∧ (makeRow act).tiempo_min = round2 (s / 60)) ∧
    ((act.total_elevation_gain = none ∨ act.total_elevation_gain = some 0) →
        (makeRow act).desnivel_m = 0) ∧
    (∀ g : ℚ, act.total_elevation_gain = some g → g ≠ 0 →
        (makeRow act).desnivel_m = g) ∧
    (0 < movingSeconds act → 0 < (makeRow act).distancia_km →
        (makeRow act).ritmo_seg_km = movingSeconds act / (makeRow act).distancia_km) ∧
    (¬(0 < movingSeconds act ∧ 0 < (makeRow act).distancia_km) →
        (makeRow act).ritmo_seg_km = 0) := by
  refine ⟨?_, ?_, ?_, ?_, ?_, ?_, ?_, ?_⟩
  · rintro (h | h) <;> simp [makeRow_distancia_eq, distKm, qTruthy, h]
  · intro d hd hdne
    simp [makeRow_distancia_eq, distKm, qTruthy, hd, hdne]
  · rintro (h | h) <;>
      (refine ⟨?_, ?_⟩ <;>
        simp [makeRow_tiempo_eq, movingSeconds, qTruthy, h, round2_zero])
  · intro s hs hsne
    refine ⟨?_, ?_⟩ <;> simp [makeRow_tiempo_eq, movingSeconds, qTruthy, hs, hsne]
  · rintro (h | h) <;> simp [makeRow, qTruthy, h]
  · intro g hg hgne
    simp [makeRow, qTruthy, hg, hgne]
  · intro h1 h2
    rw [makeRow_distancia_eq] at h2 ⊢
    rw [makeRow_ritmo_eq, if_pos ⟨h1, h2⟩]
  · intro h
    rw [makeRow_distancia_eq] at h
    rw [makeRow_ritmo_eq, if_neg h]

theorem movingSeconds_nonneg (act : Activity) (h : 0 ≤ act.moving_time.getD 0) :
    0 ≤ movingSeconds act := by
  unfold movingSeconds
  split_ifs with hq
  · exact h
  · exact le_refl 0

theorem makeRow_ritmo_nonneg (act : Activity) : 0 ≤ (makeRow act).ritmo_seg_km := by
  rw [makeRow_ritmo_eq]
  split_ifs with hc
  · exact le_of_lt (div_pos hc.1 hc.2)
  · exact le_refl 0

/-- C8: invariant of every row returned by `process_activities`: its
`'Tipo'` is "Run"; its four metric fields are nonnegative when the raw
inputs are nonnegative; and its pace is strictly positive exactly when
both the rounded distance in km and the moving-time seconds of its source
activity are strictly positive. -/
theorem C8_row_invariant (acts : List Activity)
    (hnn : ∀ a ∈ acts, 0 ≤ a.distance.getD 0 ∧ 0 ≤ a.moving_time.getD 0 ∧
      0 ≤ a.total_elevation_gain.getD 0) :
    ∀ r ∈ process_activities acts,
      r.tipo = "Run" ∧ 0 ≤ r.distancia_km ∧ 0 ≤ r.tiempo_min ∧
      0 ≤ r.desnivel_m ∧ 0 ≤ r.ritmo_seg_km ∧
      ∃ a ∈ acts, a.type = "Run" ∧ r.toRunRow = makeRow a ∧
        (0 < r.ritmo_seg_km ↔ 0 < distKm a ∧ 0 < movingSeconds a) := by
  intro r hr
  rcases mem_process_activities.mp hr with ⟨a, ha, hty, rfl⟩
  obtain ⟨hd, hm, he⟩ := hnn a ha
  refine ⟨by simpa [makeRow] using hty, ?_, ?_, ?_, ?_, a, ha, hty, rfl, ?_⟩
  · show 0 ≤ (makeRow a).distancia_km
    rw [makeRow_distancia_eq]
    unfold distKm
    split_ifs with hq
    · exact round2_nonneg (div_nonneg hd (by norm_num))
    · exact le_refl 0
  · show 0 ≤ (makeRow a).tiempo_min
    rw [makeRow_tiempo_eq]
    exact round2_nonneg (div_nonneg (movingSeconds_nonneg a hm) (by norm_num))
  · show 0 ≤ (makeRow a).desnivel_m
    show 0 ≤ if qTruthy a.total_elevation_gain then a.total_elevation_gain.getD 0 else 0
    split_ifs with hq
    · exact he
    · exact le_refl 0
  · exact makeRow_ritmo_nonneg a
  · exact makeRow_ritmo_pos_iff a

theorem positivePace_map_eq (l : List DisplayRow) :
    (positivePace l).map (·.ritmo_seg_km) =
      (l.map (·.ritmo_seg_km)).filter (fun q => decide (0 < q)) := by
  induction l with
  | nil => rfl
  | cons r rest ih =>
    by_cases h : 0 < r.ritmo_seg_km <;>
      simp [positivePace, List.filter_cons, h, ← ih]

/-- C5: the KPI statistics and best-marks selections of the app layout
are exact aggregates of the processed run table: the three totals are the
sums of the per-run values of the 'Run' activities, the average pace is
the mean of the strictly positive pace values, and each best-marks
selector returns a member of its candidate set attaining the maximum
distance, the minimum positive pace, and the maximum elevation. -/
theorem C5_aggregates (acts : List Activity) :
    total_km (process_activities acts) =
      (((acts.filter (fun a => a.type == "Run")).map
        (fun a => (makeRow a).distancia_km)).sum) ∧
    total_time_min (process_activities acts) =
      (((acts.filter (fun a => a.type == "Run")).map
        (fun a => (makeRow a).tiempo_min)).sum) ∧
    total_elevation (process_activities acts) =
      (((acts.filter (fun a => a.type == "Run")).map
        (fun a => (makeRow a).desnivel_m)).sum) ∧
    avg_pace_seconds (process_activities acts) =
      ((((acts.filter (fun a => a.type == "Run")).map
          (fun a => (makeRow a).ritmo_seg_km)).filter (fun q => decide (0 < q))).sum /
       ((((acts.filter (fun a => a.type == "Run")).map
          (fun a => (makeRow a).ritmo_seg_km)).filter (fun q => decide (0 < q))).length)) ∧
    (∀ r, longest_run (process_activities acts) = some r →
      r ∈ df_significant (process_activities acts) ∧
      ∀ r2 ∈ df_significant (process_activities acts),
        r2.distancia_km ≤ r.distancia_km) ∧
    (∀ r, fastest_run (process_activities acts) = some r →
      r ∈ positivePace (df_significant (process_activities acts)) ∧
      ∀ r2 ∈ positivePace (df_significant (process_activities acts)),
        r.ritmo_seg_km ≤ r2.ritmo_seg_km) ∧
    (∀ r, most_elevation_run (process_activities acts) = some r →
      r ∈ df_significant (process_activities acts) ∧
      ∀ r2 ∈ df_significant (process_activities acts),
        r2.desnivel_m ≤ r.desnivel_m) := by
  have hperm := process_activities_perm acts
  refine ⟨?_, ?_, ?_, ?_, ?_, ?_, ?_⟩
  · unfold total_km
    rw [(hperm.map (·.distancia_km)).sum_eq, List.map_map]
    rfl
  · unfold total_time_min
    rw [(hperm.map (·.tiempo_min)).sum_eq, List.map_map]
    rfl
  · unfold total_elevation
    rw [(hperm.map (·.desnivel_m)).sum_eq, List.map_map]
    rfl
  · have hpp := (hperm.filter (fun r => decide (r.ritmo_seg_km > 0))).map
      (fun r : DisplayRow => r.ritmo_seg_km)
    rw [show ∀ l, List.filter (fun r : DisplayRow => decide (r.ritmo_seg_km > 0)) l
        = positivePace l from fun l => rfl,
      show ∀ l, List.filter (fun r : DisplayRow => decide (r.ritmo_seg_km > 0)) l
        = positivePace l from fun l => rfl] at hpp
    simp only [avg_pace_seconds]
    rw [hpp.sum_eq, hpp.length_eq, positivePace_map_eq, List.map_map]
    rfl
  · intro r h
    have h' : r ∈ List.argmax (fun x : DisplayRow => x.distancia_km)
        (df_significant (process_activities acts)) := Option.mem_def.mpr h
    exact ⟨List.argmax_mem h', fun r2 h2 =>
      @List.le_of_mem_argmax DisplayRow ℚ _ (fun x => x.distancia_km)
        (df_significant (process_activities acts)) r2 r h2 h'⟩
  · intro r h
    have h' : r ∈ List.argmin (fun x : DisplayRow => x.ritmo_seg_km)
        (positivePace (df_significant (process_activities acts))) :=
      Option.mem_def.mpr h
    exact ⟨List.argmin_mem h', fun r2 h2 =>
      @List.le_of_mem_argmin DisplayRow ℚ _ (fun x => x.ritmo_seg_km)
        (positivePace (df_significant (process_activities acts))) r2 r h2 h'⟩
  · intro r h
    have h' : r ∈ List.argmax (fun x : DisplayRow => x.desnivel_m)
        (df_significant (process_activities acts)) := Option.mem_def.mpr h
    exact ⟨List.argmax_mem h', fun r2 h2 =>
      @List.le_of_mem_argmax DisplayRow ℚ _ (fun x => x.desnivel_m)
        (df_significant (process_activities acts)) r2 r h2 h'⟩

/-- C10: the best-marks leaderboard only considers runs of at least 1 km:
each selector only ever returns a row with `'Distancia (km)' ≥ 1`, and
when every run is shorter than 1 km the significant table is empty and
no best mark exists. -/
theorem C10_best_marks_min_distance (df : List DisplayRow) :
    (∀ r, longest_run df = some r → 1 ≤ r.distancia_km) ∧
    (∀ r, fastest_run df = some r → 1 ≤ r.distancia_km) ∧
    (∀ r, most_elevation_run df = some r → 1 ≤ r.distancia_km) ∧
    ((∀ r ∈ df, r.distancia_km < 1) →
      df_significant df = [] ∧ longest_run df = none ∧
      fastest_run df = none ∧ most_elevation_run df = none) := by
  have hsig : ∀ r, r ∈ df_significant df → 1 ≤ r.distancia_km := by
    intro r hr
    have := (List.mem_filter.mp hr).2
    simpa using this
  refine ⟨?_, ?_, ?_, ?_⟩
  · intro r h
    exact hsig r (List.argmax_mem h)
  · intro r h
    have hm := List.argmin_mem h
    exact hsig r (List.mem_filter.mp hm).1
  · intro r h
    exact hsig r (List.argmax_mem h)
  · intro hlt
    have hempty : df_significant df = [] := by
      rw [df_significant, List.filter_eq_nil_iff]
      intro r hr
      simpa using not_le.mpr (hlt r hr)
    refine ⟨hempty, ?_, ?_, ?_⟩
    · rw [longest_run, hempty, List.argmax_nil]
    · rw [fastest_run, hempty]
      rfl
    · rw [most_elevation_run, hempty, List.argmax_nil]

/-! ### Concrete sample data -/

/-- A 10 km run in 50 minutes with 120 m of climb. -/
def sampleRun : Activity :=
  { id := 1, name := "Morning Run", type := "Run", distance := some 10000,
    moving_time := some 3000, total_elevation_gain := some 120,
    start_date_local := 100 }

/-- A bike ride, to be filtered out. -/
def sampleRide : Activity :=
  { id := 2, name := "Evening Ride", type := "Ride", distance := some 30000,
    moving_time := some 5000, total_elevation_gain := some 300,
    start_date_local := 200 }

/-- A run whose moving time is missing. -/
def sampleZero : Activity :=
  { id := 3, name := "Broken watch", type := "Run", distance := some 5000,
    moving_time := none, total_elevation_gain := some 10,
    start_date_local := 50 }

/-- A 400 m run, below the 1 km best-marks threshold. -/
def sampleShort : Activity :=
  { id := 4, name := "Sprint", type := "Run", distance := some 400,
    moving_time := some 120, total_elevation_gain := none,
    start_date_local := 300 }

def sampleRunRow : DisplayRow :=
  { toRunRow := makeRow sampleRun,
    ritmo_min_km := ritmoDisplay (makeRow sampleRun).ritmo_seg_km }

def sampleZeroRow : DisplayRow :=
  { toRunRow := makeRow sampleZero,
    ritmo_min_km := ritmoDisplay (makeRow sampleZero).ritmo_seg_km }

theorem roundHalfEven_intCast (n : ℤ) : roundHalfEven (n : ℚ) = n := by
  unfold roundHalfEven
  rw [Int.floor_intCast]
  norm_num

theorem process_activities_singleton (act : Activity) (h : act.type = "Run") :
    process_activities [act] =
      [{ toRunRow := makeRow act,
         ritmo_min_km := ritmoDisplay (makeRow act).ritmo_seg_km }] := by
  simp [process_activities, processLoop, h, sortByFechaDesc]

theorem sampleRun_distKm : distKm sampleRun = 10 := by
  have h1 : distKm sampleRun = round2 ((10000 : ℚ) / 1000) := by
    simp [distKm, qTruthy, sampleRun]
  have h2 : ((10000 : ℚ) / 1000) * 100 = ((1000 : ℤ) : ℚ) := by norm_num
  rw [h1, round2, h2, roundHalfEven_intCast]
  norm_num

theorem sampleShort_distKm : distKm sampleShort = 2/5 := by
  have h1 : distKm sampleShort = round2 ((400 : ℚ) / 1000) := by
    simp [distKm, qTruthy, sampleShort]
  have h2 : ((400 : ℚ) / 1000) * 100 = ((40 : ℤ) : ℚ) := by norm_num
  rw [h1, round2, h2, roundHalfEven_intCast]
  norm_num

/-- Witness for C1: the run with no moving time produces the sentinel
pace 0 and the display string "N/A". -/
theorem C1_witness :
    sampleZeroRow.ritmo_seg_km = 0 ∧ sampleZeroRow.ritmo_min_km = "N/A" :=
  C1_zero_pace_sentinel [sampleZero] sampleZeroRow
    (mem_process_activities.mpr ⟨sampleZero, List.mem_singleton.mpr rfl, rfl, rfl⟩)
    sampleZero rfl (Or.inl rfl)

/-- Witness for C3: a ride-only input produces the empty DataFrame. -/
theorem C3_witness : process_activities [sampleRide] = [] :=
  (C3_run_filter [sampleRide]).2.2 (by
    intro a ha
    rw [List.mem_singleton] at ha
    subst ha
    decide)

/-- Witness for C4 at concrete records: the missing moving time maps to
zero seconds and zero minutes, and a 10000 m distance maps to
`round(10000/1000, 2)` km. -/
theorem C4_witness :
    movingSeconds sampleZero = 0 ∧ (makeRow sampleZero).tiempo_min = 0 ∧
    (makeRow sampleRun).distancia_km = round2 ((10000 : ℚ) / 1000) := by
  have h0 := C4_derived_fields sampleZero rfl
  have h1 := C4_derived_fields sampleRun rfl
  obtain ⟨hm, ht⟩ := h0.2.2.1 (Or.inl rfl)
  exact ⟨hm, ht, h1.2.1 10000 rfl (by norm_num)⟩

/-- Witness for C5: on a single 10 km run the total-distance KPI is the
sum over the one filtered activity, and the longest-run selector returns
that run, a member of the significant table. -/
theorem C5_witness :
    total_km (process_activities [sampleRun]) =
      (([sampleRun].filter (fun a => a.type == "Run")).map
        (fun a => (makeRow a).distancia_km)).sum ∧
    sampleRunRow ∈ df_significant (process_activities [sampleRun]) := by
  have hsig : df_significant (process_activities [sampleRun]) = [sampleRunRow] := by
    rw [process_activities_singleton sampleRun rfl]
    have : (1 : ℚ) ≤ (makeRow sampleRun).distancia_km := by
      rw [makeRow_distancia_eq, sampleRun_distKm]
      norm_num
    simp [df_significant, List.filter, sampleRunRow, this]
  have hlong : longest_run (process_activities [sampleRun]) = some sampleRunRow := by
    rw [longest_run, hsig]
    exact List.argmax_singleton
  have h := C5_aggregates [sampleRun]
  exact ⟨h.1, (h.2.2.2.2.1 sampleRunRow hlong).1⟩

/-- Witness for C8 on the 10 km run: its row has type "Run" and a
nonnegative distance, and its pace is positive together with its inputs. -/
theorem C8_witness :
    sampleRunRow.tipo = "Run" ∧ 0 ≤ sampleRunRow.distancia_km ∧
    0 ≤ sampleRunRow.ritmo_seg_km := by
  have hnn : ∀ a ∈ [sampleRun], 0 ≤ a.distance.getD 0 ∧
      0 ≤ a.moving_time.getD 0 ∧ 0 ≤ a.total_elevation_gain.getD 0 := by
    intro a ha
    rw [List.mem_singleton] at ha
    subst ha
    refine ⟨?_, ?_, ?_⟩ <;> norm_num [sampleRun]
  have hm : sampleRunRow ∈ process_activities [sampleRun] := by
    rw [process_activities_singleton sampleRun rfl]
    exact List.mem_singleton.mpr rfl
  obtain ⟨h1, h2, _h3, _h4, h5, -⟩ := C8_row_invariant [sampleRun] hnn sampleRunRow hm
  exact ⟨h1, h2, h5⟩

/-- Witness for C10: with only a 400 m run there is no significant run
and no best mark. -/
theorem C10_witness :
    df_significant (process_activities [sampleShort]) = [] ∧
    longest_run (process_activities [sampleShort]) = none ∧
    fastest_run (process_activities [sampleShort]) = none ∧
    most_elevation_run (process_activities [sampleShort]) = none := by
  have hshort : ∀ r ∈ process_activities [sampleShort], r.distancia_km < 1 := by
    intro r hr
    rw [process_activities_singleton sampleShort rfl, List.mem_singleton] at hr
    subst hr
    show (makeRow sampleShort).distancia_km < 1
    rw [makeRow_distancia_eq, sampleShort_distKm]
    norm_num
  exact (C10_best_marks_min_distance (process_activities [sampleShort])).2.2.2 hshort
